import Mathlib

/-!
Verification of the histogram-plotting script `plot.py`.

The script is shallowly embedded: file reading is modelled by a function
`String → Option String` from paths to contents, and the matplotlib calls
made by `plot` are recorded as an explicit trace of effects (`Eff`).
Python-specific semantics that the script relies on — `file(..).readlines()`
line splitting, `int(..)` parsing with surrounding-whitespace tolerance,
`str.title()`, and `range(start, stop, step)` — are embedded as executable
Lean functions.
-/

/-- The whitespace characters stripped by Python's `int()` conversion. -/
def isPySpace (c : Char) : Bool :=
  c = ' ' || c = '\t' || c = '\n' || c = '\r' || c = '\x0b' || c = '\x0c'

/-- The ten ASCII decimal digit characters. -/
def isDigitChar (c : Char) : Bool :=
  c = '0' || c = '1' || c = '2' || c = '3' || c = '4' ||
  c = '5' || c = '6' || c = '7' || c = '8' || c = '9'

/-- Base-10 value of a digit string (most significant first). -/
def digitsVal (cs : List Char) : Nat :=
  cs.foldl (fun a c => 10 * a + (c.toNat - 48)) 0

/-- Strip leading and trailing Python whitespace, as `int()` does before
parsing. -/
def pyStrip (cs : List Char) : List Char :=
  ((cs.dropWhile isPySpace).reverse.dropWhile isPySpace).reverse

/-- Does a whitespace-stripped character list form a valid base-10 integer
literal (optional single sign, then one or more digits), the grammar accepted
by Python's `int()`? -/
def isIntCore (cs : List Char) : Bool :=
  match cs with
  | [] => false
  | c :: rest =>
    if c = '-' then !rest.isEmpty && rest.all isDigitChar
    else if c = '+' then !rest.isEmpty && rest.all isDigitChar
    else (c :: rest).all isDigitChar

/-- Parse a whitespace-stripped character list as a base-10 integer, the way
Python's `int()` does after stripping. -/
def parseCore (cs : List Char) : Option Int :=
  match cs with
  | [] => none
  | c :: rest =>
    if c = '-' then
      if !rest.isEmpty && rest.all isDigitChar then some (-(digitsVal rest : Int)) else none
    else if c = '+' then
      if !rest.isEmpty && rest.all isDigitChar then some ((digitsVal rest : Int)) else none
    else
      if (c :: rest).all isDigitChar then some ((digitsVal (c :: rest) : Int)) else none

/-- Python's `int(s)` on a string: strip surrounding whitespace, then parse an
optionally signed run of decimal digits; `none` models a raised `ValueError`. -/
def pyInt (s : String) : Option Int :=
  parseCore (pyStrip s.data)

/-- Helper for `readlines`: split after each newline, keeping the newline at
the end of each line, as Python's `file.readlines()` does. -/
def readlinesAux : List Char → List Char → List String
  | acc, [] => if acc.isEmpty then [] else [String.mk acc.reverse]
  | acc, c :: rest =>
    if c = '\n' then String.mk (acc.reverse ++ ['\n']) :: readlinesAux [] rest
    else readlinesAux (c :: acc) rest

/-- Python's `file(path).readlines()` applied to the file's contents: the list
of lines, each keeping its trailing newline; an empty file yields `[]`. -/
def readlines (content : String) : List String :=
  readlinesAux [] content.data

/-- Helper for Python's `str.title()`: uppercase a letter that follows a
non-letter, lowercase a letter that follows a letter. -/
def pyTitleAux : Bool → List Char → List Char
  | _, [] => []
  | prev, c :: rest =>
    if c.isAlpha then
      (if prev then c.toLower else c.toUpper) :: pyTitleAux true rest
    else c :: pyTitleAux false rest

/-- Python's `str.title()` (restricted to ASCII, which is all the script
uses). -/
def pyTitle (s : String) : String :=
  String.mk (pyTitleAux false s.data)

/-- Python's `range(start, stop, step)` for a positive step: the ascending
list `start, start+step, ...` of values below `stop`. -/
def pyRange (start stop step : Nat) : List Nat :=
  (List.range ((stop - start + step - 1) / step)).map (fun k => start + step * k)

/-- A histogram built from a list of edges has one fewer bin than edges
(matplotlib semantics for a sequence-valued `bins` argument). -/
def binCount (edges : List Nat) : Nat :=
  edges.length - 1

/-- Errors the script can raise: a missing/unreadable file (`IOError` from
`file(path)`) or a malformed line (`ValueError` from `int(line)`). -/
inductive PyErr where
  | ioError (path : String)
  | valueError (line : String)
deriving DecidableEq

/-- One observable effect of the script: an attempted file open by
`read_data`, or one of the matplotlib calls made by `plot`. -/
inductive Eff where
  | cla
  | openRead (path : String)
  | hist (data : List Int) (label : String) (bins : List Nat) (color : String) (alpha : Rat)
  | xlabel (s : String)
  | ylabel (s : String)
  | legend
  | savefig (path : String)
deriving DecidableEq

/-- The path `read_data` opens for a file stem `fn`: `'target/'+fn+'.dat'`. -/
def dataPath (fn : String) : String :=
  "target/" ++ fn ++ ".dat"

/-- The list comprehension `[int(x) for x in lines]`: parse left to right,
raising on the first line `int` rejects. -/
def parseLines : List String → Except PyErr (List Int)
  | [] => .ok []
  | l :: rest =>
    match pyInt l with
    | none => .error (.valueError l)
    | some v =>
      match parseLines rest with
      | .error e => .error e
      | .ok vs => .ok (v :: vs)

/-- `read_data(fn)`: open `'target/'+fn+'.dat'`, read its lines, and parse
each as a base-10 integer. -/
def read_data (fs : String → Option String) (fn : String) : Except PyErr (List Int) :=
  match fs (dataPath fn) with
  | none => .error (.ioError (dataPath fn))
  | some content => parseLines (readlines content)

/-- `plot(which, bins)`: clear the axes, overlay the three histograms
(mutex green, rwlock blue, seqloq red, each with alpha 0.4), set the axis
labels, draw the legend, and save `'histogram.'+which+'.png'`.  Returns the
trace of effects performed together with the uncaught error, if any; effects
after a raised error are never performed. -/
def plot (fs : String → Option String) (which : String) (bins : List Nat) :
    List Eff × Option PyErr :=
  match read_data fs ("mutex_" ++ which) with
  | .error e => ([.cla, .openRead (dataPath ("mutex_" ++ which))], some e)
  | .ok d1 =>
    match read_data fs ("rwlock_" ++ which) with
    | .error e =>
        ([.cla, .openRead (dataPath ("mutex_" ++ which)),
          .hist d1 "Mutex" bins "g" (mkRat 4 10),
          .openRead (dataPath ("rwlock_" ++ which))], some e)
    | .ok d2 =>
      match read_data fs ("seqloq_" ++ which) with
      | .error e =>
          ([.cla, .openRead (dataPath ("mutex_" ++ which)),
            .hist d1 "Mutex" bins "g" (mkRat 4 10),
            .openRead (dataPath ("rwlock_" ++ which)),
            .hist d2 "RwLock" bins "b" (mkRat 4 10),
            .openRead (dataPath ("seqloq_" ++ which))], some e)
      | .ok d3 =>
          ([.cla, .openRead (dataPath ("mutex_" ++ which)),
            .hist d1 "Mutex" bins "g" (mkRat 4 10),
            .openRead (dataPath ("rwlock_" ++ which)),
            .hist d2 "RwLock" bins "b" (mkRat 4 10),
            .openRead (dataPath ("seqloq_" ++ which)),
            .hist d3 "Seqloq" bins "r" (mkRat 4 10),
            .xlabel (pyTitle which ++ " time (nanoseconds)"),
            .ylabel "Count out of 10,000",
            .legend,
            .savefig ("histogram." ++ which ++ ".png")], none)

/-- Bin edges of the read chart: `range(150, 200, 2)`. -/
def readBins : List Nat := pyRange 150 200 2

/-- Bin edges of the write chart: `range(600, 3750, 40)`. -/
def writeBins : List Nat := pyRange 600 3750 40

/-- The script body: `plot('read', range(150, 200, 2))` then
`plot('write', range(600, 3750, 40))`; an uncaught error in the first call
prevents the second from running. -/
def mainRun (fs : String → Option String) : List Eff × Option PyErr :=
  match plot fs "read" readBins with
  | (t1, some e) => (t1, some e)
  | (t1, none) =>
    match plot fs "write" writeBins with
    | (t2, e2) => (t1 ++ t2, e2)

/-- The file paths a trace attempted to open for reading, in order. -/
def openedPaths (t : List Eff) : List String :=
  t.filterMap fun e => match e with | .openRead p => some p | _ => none

/-- The image file paths a trace saved, in order. -/
def savedPaths (t : List Eff) : List String :=
  t.filterMap fun e => match e with | .savefig p => some p | _ => none

/-- The histogram-drawing effects of a trace, in order. -/
def histEffects (t : List Eff) : List Eff :=
  t.filter fun e => match e with | .hist _ _ _ _ _ => true | _ => false

/-- The horizontal-axis labels a trace set, in order. -/
def xlabels (t : List Eff) : List String :=
  t.filterMap fun e => match e with | .xlabel s => some s | _ => none

/-- The vertical-axis labels a trace set, in order. -/
def ylabels (t : List Eff) : List String :=
  t.filterMap fun e => match e with | .ylabel s => some s | _ => none

/-- Abstract state of the current matplotlib axes: the overlaid series (data,
label, color), the two axis labels, and whether a legend was drawn. -/
structure Chart where
  series : List (List Int × String × String)
  xlab : String
  ylab : String
  legendOn : Bool
deriving DecidableEq

/-- The empty axes: the state `plt.cla()` resets to. -/
def initChart : Chart :=
  ⟨[], "", "", false⟩

/-- How each effect transforms the shared axes state; a `savefig` records a
snapshot of the axes under the saved path. -/
def stepChart (c : Chart) : Eff → Chart × List (String × Chart)
  | .cla => (initChart, [])
  | .openRead _ => (c, [])
  | .hist d l _ col _ => ({ c with series := c.series ++ [(d, l, col)] }, [])
  | .xlabel s => ({ c with xlab := s }, [])
  | .ylabel s => ({ c with ylab := s }, [])
  | .legend => ({ c with legendOn := true }, [])
  | .savefig p => (c, [(p, c)])

/-- Run a trace of effects over the shared axes state, collecting the chart
snapshot saved to each image file. -/
def runChart : Chart → List Eff → Chart × List (String × Chart)
  | c, [] => (c, [])
  | c, e :: rest =>
    let s := stepChart c e
    let r := runChart s.1 rest
    (r.1, s.2 ++ r.2)

/-- The stems of the three files `plot(which, _)` reads, in order. -/
def primFiles (which : String) : List String :=
  ["mutex_" ++ which, "rwlock_" ++ which, "seqloq_" ++ which]

/-- The stems of the six files a full run reads, in order. -/
def allFiles : List String :=
  ["mutex_read", "rwlock_read", "seqloq_read", "mutex_write", "rwlock_write", "seqloq_write"]

/-- The file at `dataPath fn` exists and all its lines parse as integers. -/
def validFile (fs : String → Option String) (fn : String) : Prop :=
  ∃ content, fs (dataPath fn) = some content ∧
    ∀ l ∈ readlines content, (pyInt l).isSome = true

/-- A line that is a base-10 integer literal optionally surrounded by
whitespace: the lines the spec calls well-formed. -/
def validIntLine (s : String) : Prop :=
  ∃ w1 core w2 : List Char,
    s.data = w1 ++ (core ++ w2) ∧ (∀ c ∈ w1, isPySpace c = true) ∧
    (∀ c ∈ w2, isPySpace c = true) ∧ isIntCore core = true

/-- A concrete filesystem holding all six input files with valid contents. -/
def sampleFS : String → Option String := fun p =>
  if p = "target/mutex_read.dat" ∨ p = "target/rwlock_read.dat" ∨ p = "target/seqloq_read.dat" then
    some "170\n"
  else if p = "target/mutex_write.dat" ∨ p = "target/rwlock_write.dat" ∨ p = "target/seqloq_write.dat" then
    some "600\n"
  else none

/-- `sampleFS` with all three write-metric files removed. -/
def sampleFSNoWrite : String → Option String := fun p =>
  if p = "target/mutex_read.dat" ∨ p = "target/rwlock_read.dat" ∨ p = "target/seqloq_read.dat" then
    some "170\n"
  else none

/-- `sampleFS` with only `target/rwlock_write.dat` removed. -/
def sampleFSNoRwlockWrite : String → Option String := fun p =>
  if p = "target/rwlock_write.dat" then none else sampleFS p

/-- `sampleFS` with a non-numeric line in `target/mutex_read.dat`. -/
def badLineFS : String → Option String := fun p =>
  if p = "target/mutex_read.dat" then some "abc\n" else sampleFS p

/-- `sampleFS` with `target/mutex_read.dat` empty. -/
def emptyFileFS : String → Option String := fun p =>
  if p = "target/mutex_read.dat" then some "" else sampleFS p

/-- `sampleFS` with a trailing blank line in `target/mutex_read.dat`. -/
def blankLineFS : String → Option String := fun p =>
  if p = "target/mutex_read.dat" then some "170\n\n" else sampleFS p

/-! ## Helper lemmas about parsing -/

theorem dropWhile_append_all (p : Char → Bool) (w l : List Char)
    (h : ∀ c ∈ w, p c = true) : List.dropWhile p (w ++ l) = List.dropWhile p l := by
  induction w with
  | nil => simp
  | cons a w ih =>
    simp only [List.cons_append, List.dropWhile_cons, h a (List.mem_cons_self a w), if_pos]
    exact ih fun c hc => h c (List.mem_cons_of_mem a hc)

theorem dropWhile_cons_false (p : Char → Bool) (a : Char) (l : List Char)
    (h : p a = false) : List.dropWhile p (a :: l) = a :: l := by
  simp [List.dropWhile_cons, h]

theorem not_space_of_digitChar (c : Char) (h : isDigitChar c = true) :
    isPySpace c = false := by
  simp only [isDigitChar, Bool.or_eq_true, decide_eq_true_eq] at h
  rcases h with ((((((((h | h) | h) | h) | h) | h) | h) | h) | h) | h <;> subst h <;> decide

theorem intCore_head (cs : List Char) (h : isIntCore cs = true) :
    ∃ a as, cs = a :: as ∧ isPySpace a = false := by
  cases cs with
  | nil => simp [isIntCore] at h
  | cons c rest =>
    refine ⟨c, rest, rfl, ?_⟩
    by_cases hm : c = '-'
    · subst hm; decide
    · by_cases hp : c = '+'
      · subst hp; decide
      · simp only [isIntCore, hm, hp, if_false, List.all_cons, Bool.and_eq_true] at h
        exact not_space_of_digitChar c h.1

theorem intCore_last (cs : List Char) (h : isIntCore cs = true) :
    ∃ b bs, cs.reverse = b :: bs ∧ isPySpace b = false := by
  cases cs with
  | nil => simp [isIntCore] at h
  | cons c rest =>
    have hall : rest = [] ∨ rest.all isDigitChar = true := by
      by_cases hm : c = '-'
      · subst hm; simp only [isIntCore, reduceIte, Bool.and_eq_true] at h
        exact Or.inr h.2
      · by_cases hp : c = '+'
        · subst hp
          simp only [isIntCore, reduceIte, ite_self, Bool.and_eq_true] at h
          exact Or.inr h.2
        · simp only [isIntCore, hm, hp, if_false, List.all_cons, Bool.and_eq_true] at h
          exact Or.inr h.2
    cases hrev : rest.reverse with
    | nil =>
      have hr : rest = [] := by simpa using congrArg List.reverse hrev
      subst hr
      have hd : isDigitChar c = true := by
        by_cases hm : c = '-'
        · subst hm; simp [isIntCore] at h
        · by_cases hp : c = '+'
          · subst hp; simp [isIntCore] at h
          · simpa [isIntCore, hm, hp] using h
      exact ⟨c, [], by simp, not_space_of_digitChar c hd⟩
    | cons b bs =>
      have hrne : rest ≠ [] := by
        intro hr; subst hr; simp at hrev
      have hb : b ∈ rest := by
        have : b ∈ rest.reverse := by rw [hrev]; exact List.mem_cons_self b bs
        exact List.mem_reverse.mp this
      have hbd : isDigitChar b = true := by
        rcases hall with hr | hall
        · exact absurd hr hrne
        · exact List.all_eq_true.mp hall b hb
      exact ⟨b, bs ++ [c], by simp [List.reverse_cons, hrev], not_space_of_digitChar b hbd⟩

theorem parseCore_isSome (cs : List Char) : (parseCore cs).isSome = isIntCore cs := by
  cases cs with
  | nil => rfl
  | cons c rest =>
    by_cases hm : c = '-'
    · subst hm
      simp only [parseCore, isIntCore, if_true]
      split <;> simp_all
    · by_cases hp : c = '+'
      · subst hp
        simp only [parseCore, isIntCore, hm, if_false, if_true]
        split <;> simp_all
      · simp only [parseCore, isIntCore, hm, hp, if_false]
        split <;> simp_all

theorem pyStrip_sandwich (w1 core w2 : List Char)
    (h1 : ∀ c ∈ w1, isPySpace c = true) (h2 : ∀ c ∈ w2, isPySpace c = true)
    (hcore : isIntCore core = true) :
    pyStrip (w1 ++ (core ++ w2)) = core := by
  obtain ⟨a, as, ha, hna⟩ := intCore_head core hcore
  obtain ⟨b, bs, hb, hnb⟩ := intCore_last core hcore
  unfold pyStrip
  rw [dropWhile_append_all _ w1 _ h1, ha, List.cons_append,
    dropWhile_cons_false _ _ _ hna, ← List.cons_append, ← ha, List.reverse_append,
    dropWhile_append_all _ _ _ (fun c hc => h2 c (List.mem_reverse.mp hc)),
    hb, dropWhile_cons_false _ _ _ hnb, ← hb, List.reverse_reverse]

theorem pyInt_isSome_of_valid (s : String) (h : validIntLine s) :
    (pyInt s).isSome = true := by
  obtain ⟨w1, core, w2, hdata, h1, h2, hcore⟩ := h
  unfold pyInt
  rw [hdata, pyStrip_sandwich w1 core w2 h1 h2 hcore, parseCore_isSome]
  exact hcore

theorem pyInt_none_of_blank (s : String)
    (hsp : ∀ c ∈ s.data, isPySpace c = true) : pyInt s = none := by
  unfold pyInt pyStrip
  rw [show s.data = s.data ++ [] by simp, dropWhile_append_all _ _ _ hsp]
  rfl

theorem parseLines_ok (lines : List String)
    (h : ∀ l ∈ lines, (pyInt l).isSome = true) :
    parseLines lines = Except.ok (lines.filterMap pyInt) ∧
      (lines.filterMap pyInt).length = lines.length := by
  induction lines with
  | nil => exact ⟨rfl, rfl⟩
  | cons l rest ih =>
    obtain ⟨v, hv⟩ := Option.isSome_iff_exists.mp (h l (List.mem_cons_self l rest))
    obtain ⟨ih1, ih2⟩ := ih fun x hx => h x (List.mem_cons_of_mem l hx)
    constructor
    · simp [parseLines, hv, ih1, List.filterMap_cons]
    · simp [List.filterMap_cons, hv, ih2]

theorem parseLines_err (lines : List String) (h : ∃ l ∈ lines, pyInt l = none) :
    ∃ l, pyInt l = none ∧ parseLines lines = .error (PyErr.valueError l) := by
  induction lines with
  | nil => simp at h
  | cons l rest ih =>
    cases hl : pyInt l with
    | none => exact ⟨l, hl, by simp [parseLines, hl]⟩
    | some v =>
      have hrest : ∃ x ∈ rest, pyInt x = none := by
        rcases h with ⟨x, hx, hxn⟩
        rcases List.mem_cons.mp hx with rfl | hx'
        · rw [hl] at hxn; exact absurd hxn (by simp)
        · exact ⟨x, hx', hxn⟩
      obtain ⟨x, hxn, hpe⟩ := ih hrest
      exact ⟨x, hxn, by simp [parseLines, hl, hpe]⟩

/-! ## Helper lemmas about `read_data`, `plot` and the script body -/

theorem read_data_congr (fs fs' : String → Option String) (fn : String)
    (h : fs (dataPath fn) = fs' (dataPath fn)) : read_data fs fn = read_data fs' fn := by
  unfold read_data
  rw [h]

theorem read_data_ok (fs : String → Option String) (fn content : String)
    (hc : fs (dataPath fn) = some content)
    (h : ∀ l ∈ readlines content, (pyInt l).isSome = true) :
    read_data fs fn = Except.ok ((readlines content).filterMap pyInt) := by
  unfold read_data
  rw [hc]
  exact (parseLines_ok _ h).1

theorem read_data_ok_of_valid (fs : String → Option String) (fn : String)
    (h : validFile fs fn) : ∃ d, read_data fs fn = Except.ok d := by
  obtain ⟨content, hc, hl⟩ := h
  exact ⟨_, read_data_ok fs fn content hc hl⟩

theorem plot_err1 (fs : String → Option String) (which : String) (bins : List Nat)
    (e : PyErr) (h1 : read_data fs ("mutex_" ++ which) = .error e) :
    plot fs which bins = ([.cla, .openRead (dataPath ("mutex_" ++ which))], some e) := by
  simp only [plot, h1]

theorem plot_err2 (fs : String → Option String) (which : String) (bins : List Nat)
    (d1 : List Int) (e : PyErr)
    (h1 : read_data fs ("mutex_" ++ which) = .ok d1)
    (h2 : read_data fs ("rwlock_" ++ which) = .error e) :
    plot fs which bins =
      ([.cla, .openRead (dataPath ("mutex_" ++ which)),
        .hist d1 "Mutex" bins "g" (mkRat 4 10),
        .openRead (dataPath ("rwlock_" ++ which))], some e) := by
  simp only [plot, h1, h2]

theorem plot_err3 (fs : String → Option String) (which : String) (bins : List Nat)
    (d1 d2 : List Int) (e : PyErr)
    (h1 : read_data fs ("mutex_" ++ which) = .ok d1)
    (h2 : read_data fs ("rwlock_" ++ which) = .ok d2)
    (h3 : read_data fs ("seqloq_" ++ which) = .error e) :
    plot fs which bins =
      ([.cla, .openRead (dataPath ("mutex_" ++ which)),
        .hist d1 "Mutex" bins "g" (mkRat 4 10),
        .openRead (dataPath ("rwlock_" ++ which)),
        .hist d2 "RwLock" bins "b" (mkRat 4 10),
        .openRead (dataPath ("seqloq_" ++ which))], some e) := by
  simp only [plot, h1, h2, h3]

theorem plot_success (fs : String → Option String) (which : String) (bins : List Nat)
    (d1 d2 d3 : List Int)
    (h1 : read_data fs ("mutex_" ++ which) = .ok d1)
    (h2 : read_data fs ("rwlock_" ++ which) = .ok d2)
    (h3 : read_data fs ("seqloq_" ++ which) = .ok d3) :
    plot fs which bins =
      ([.cla, .openRead (dataPath ("mutex_" ++ which)),
        .hist d1 "Mutex" bins "g" (mkRat 4 10),
        .openRead (dataPath ("rwlock_" ++ which)),
        .hist d2 "RwLock" bins "b" (mkRat 4 10),
        .openRead (dataPath ("seqloq_" ++ which)),
        .hist d3 "Seqloq" bins "r" (mkRat 4 10),
        .xlabel (pyTitle which ++ " time (nanoseconds)"),
        .ylabel "Count out of 10,000",
        .legend,
        .savefig ("histogram." ++ which ++ ".png")], none) := by
  simp only [plot, h1, h2, h3]

theorem plot_savefig_mem (fs : String → Option String) (which : String) (bins : List Nat)
    (p : String) (h : Eff.savefig p ∈ (plot fs which bins).1) :
    p = "histogram." ++ which ++ ".png" ∧ (plot fs which bins).2 = none := by
  cases h1 : read_data fs ("mutex_" ++ which) with
  | error e =>
    rw [plot_err1 fs which bins e h1] at h
    simp at h
  | ok d1 =>
    cases h2 : read_data fs ("rwlock_" ++ which) with
    | error e =>
      rw [plot_err2 fs which bins d1 e h1 h2] at h
      simp at h
    | ok d2 =>
      cases h3 : read_data fs ("seqloq_" ++ which) with
      | error e =>
        rw [plot_err3 fs which bins d1 d2 e h1 h2 h3] at h
        simp at h
      | ok d3 =>
        rw [plot_success fs which bins d1 d2 d3 h1 h2 h3] at h ⊢
        simp at h
        exact ⟨h, rfl⟩

theorem plot_hist_bins (fs : String → Option String) (which : String) (bins : List Nat)
    (d : List Int) (l : String) (b : List Nat) (c : String) (a : Rat)
    (h : Eff.hist d l b c a ∈ (plot fs which bins).1) : b = bins := by
  cases h1 : read_data fs ("mutex_" ++ which) with
  | error e =>
    rw [plot_err1 fs which bins e h1] at h
    simp at h
  | ok d1 =>
    cases h2 : read_data fs ("rwlock_" ++ which) with
    | error e =>
      rw [plot_err2 fs which bins d1 e h1 h2] at h
      simp at h
      exact h.2.2.1
    | ok d2 =>
      cases h3 : read_data fs ("seqloq_" ++ which) with
      | error e =>
        rw [plot_err3 fs which bins d1 d2 e h1 h2 h3] at h
        simp at h
        rcases h with h | h <;> exact h.2.2.1
      | ok d3 =>
        rw [plot_success fs which bins d1 d2 d3 h1 h2 h3] at h
        simp at h
        rcases h with h | h | h <;> exact h.2.2.1

theorem plot_head_cla (fs : String → Option String) (which : String) (bins : List Nat) :
    ∃ t, (plot fs which bins).1 = Eff.cla :: t := by
  cases h1 : read_data fs ("mutex_" ++ which) with
  | error e => exact ⟨_, by rw [plot_err1 fs which bins e h1]⟩
  | ok d1 =>
    cases h2 : read_data fs ("rwlock_" ++ which) with
    | error e => exact ⟨_, by rw [plot_err2 fs which bins d1 e h1 h2]⟩
    | ok d2 =>
      cases h3 : read_data fs ("seqloq_" ++ which) with
      | error e => exact ⟨_, by rw [plot_err3 fs which bins d1 d2 e h1 h2 h3]⟩
      | ok d3 => exact ⟨_, by rw [plot_success fs which bins d1 d2 d3 h1 h2 h3]⟩

theorem plot_ext (fs fs' : String → Option String) (which : String) (bins : List Nat)
    (h : ∀ fn ∈ primFiles which, fs (dataPath fn) = fs' (dataPath fn)) :
    plot fs which bins = plot fs' which bins := by
  have e1 : read_data fs ("mutex_" ++ which) = read_data fs' ("mutex_" ++ which) :=
    read_data_congr fs fs' _ (h _ (by simp [primFiles]))
  have e2 : read_data fs ("rwlock_" ++ which) = read_data fs' ("rwlock_" ++ which) :=
    read_data_congr fs fs' _ (h _ (by simp [primFiles]))
  have e3 : read_data fs ("seqloq_" ++ which) = read_data fs' ("seqloq_" ++ which) :=
    read_data_congr fs fs' _ (h _ (by simp [primFiles]))
  unfold plot
  rw [e1, e2, e3]

theorem mainRun_err (fs : String → Option String) (t : List Eff) (e : PyErr)
    (h : plot fs "read" readBins = (t, some e)) : mainRun fs = (t, some e) := by
  unfold mainRun
  rw [h]

theorem mainRun_ok (fs : String → Option String) (t : List Eff)
    (h : plot fs "read" readBins = (t, none)) :
    mainRun fs = (t ++ (plot fs "write" writeBins).1, (plot fs "write" writeBins).2) := by
  unfold mainRun
  rw [h]

theorem mainRun_success (fs : String → Option String)
    (h : ∀ fn ∈ allFiles, validFile fs fn) :
    ∃ rd1 rd2 rd3 wd1 wd2 wd3 : List Int,
      mainRun fs =
        ([.cla, .openRead "target/mutex_read.dat",
          .hist rd1 "Mutex" readBins "g" (mkRat 4 10),
          .openRead "target/rwlock_read.dat",
          .hist rd2 "RwLock" readBins "b" (mkRat 4 10),
          .openRead "target/seqloq_read.dat",
          .hist rd3 "Seqloq" readBins "r" (mkRat 4 10),
          .xlabel "Read time (nanoseconds)", .ylabel "Count out of 10,000",
          .legend, .savefig "histogram.read.png",
          .cla, .openRead "target/mutex_write.dat",
          .hist wd1 "Mutex" writeBins "g" (mkRat 4 10),
          .openRead "target/rwlock_write.dat",
          .hist wd2 "RwLock" writeBins "b" (mkRat 4 10),
          .openRead "target/seqloq_write.dat",
          .hist wd3 "Seqloq" writeBins "r" (mkRat 4 10),
          .xlabel "Write time (nanoseconds)", .ylabel "Count out of 10,000",
          .legend, .savefig "histogram.write.png"], none) := by
  obtain ⟨rd1, hr1⟩ := read_data_ok_of_valid fs ("mutex_" ++ "read") (h _ (by decide))
  obtain ⟨rd2, hr2⟩ := read_data_ok_of_valid fs ("rwlock_" ++ "read") (h _ (by decide))
  obtain ⟨rd3, hr3⟩ := read_data_ok_of_valid fs ("seqloq_" ++ "read") (h _ (by decide))
  obtain ⟨wd1, hw1⟩ := read_data_ok_of_valid fs ("mutex_" ++ "write") (h _ (by decide))
  obtain ⟨wd2, hw2⟩ := read_data_ok_of_valid fs ("rwlock_" ++ "write") (h _ (by decide))
  obtain ⟨wd3, hw3⟩ := read_data_ok_of_valid fs ("seqloq_" ++ "write") (h _ (by decide))
  have hread := plot_success fs "read" readBins rd1 rd2 rd3 hr1 hr2 hr3
  have hwrite := plot_success fs "write" writeBins wd1 wd2 wd3 hw1 hw2 hw3
  refine ⟨rd1, rd2, rd3, wd1, wd2, wd3, ?_⟩
  rw [mainRun_ok fs _ hread, hwrite]
  rfl

theorem plot_savefig_of_none (fs : String → Option String) (which : String) (bins : List Nat)
    (h : (plot fs which bins).2 = none) :
    Eff.savefig ("histogram." ++ which ++ ".png") ∈ (plot fs which bins).1 := by
  cases h1 : read_data fs ("mutex_" ++ which) with
  | error e =>
    rw [plot_err1 fs which bins e h1] at h
    simp at h
  | ok d1 =>
    cases h2 : read_data fs ("rwlock_" ++ which) with
    | error e =>
      rw [plot_err2 fs which bins d1 e h1 h2] at h
      simp at h
    | ok d2 =>
      cases h3 : read_data fs ("seqloq_" ++ which) with
      | error e =>
        rw [plot_err3 fs which bins d1 d2 e h1 h2 h3] at h
        simp at h
      | ok d3 =>
        rw [plot_success fs which bins d1 d2 d3 h1 h2 h3]
        simp

theorem mainRun_savefig_read (fs : String → Option String) :
    Eff.savefig "histogram.read.png" ∈ (mainRun fs).1 ↔
      Eff.savefig "histogram.read.png" ∈ (plot fs "read" readBins).1 := by
  rcases hp : plot fs "read" readBins with ⟨t1, e1⟩
  cases e1 with
  | some e => rw [mainRun_err fs t1 e hp]
  | none =>
    simp only [mainRun_ok fs t1 hp, List.mem_append]
    constructor
    · rintro (h | h)
      · exact h
      · obtain ⟨hpath, -⟩ := plot_savefig_mem fs "write" writeBins _ h
        exact absurd hpath (by decide)
    · exact fun h => Or.inl h

/-! ## Claim theorems -/

/-- C1 (counterexample): the write-metric chart's bin edges
`range(600, 3750, 40)` form 78 bins, not the 79 the claim states. -/
theorem c1_write_bins_not_79 : ¬ binCount (pyRange 600 3750 40) = 79 := by
  decide

/-- C1 (amended): for every run, the read-metric chart uses bin edges exactly
{150, 152, ..., 198} forming 24 bins, and the write-metric chart uses bin
edges exactly {600, 640, ..., 3720} forming 78 bins, independent of the
sample data's minimum and maximum values (every histogram drawn by any run
uses one of these two fixed edge lists). -/
theorem c1_fixed_bin_edges :
    pyRange 150 200 2 =
      [150, 152, 154, 156, 158, 160, 162, 164, 166, 168, 170, 172, 174, 176,
       178, 180, 182, 184, 186, 188, 190, 192, 194, 196, 198] ∧
    binCount (pyRange 150 200 2) = 24 ∧
    pyRange 600 3750 40 = (List.range 79).map (fun k => 600 + 40 * k) ∧
    (pyRange 600 3750 40).head? = some 600 ∧
    (pyRange 600 3750 40).getLast? = some 3720 ∧
    binCount (pyRange 600 3750 40) = 78 ∧
    ∀ (fs : String → Option String) (d : List Int) (l : String) (b : List Nat)
      (c : String) (a : Rat), Eff.hist d l b c a ∈ (mainRun fs).1 →
      b = pyRange 150 200 2 ∨ b = pyRange 600 3750 40 := by
  refine ⟨by decide, by decide, by decide, by decide, by decide, by decide, ?_⟩
  intro fs d l b c a hmem
  rcases hp : plot fs "read" readBins with ⟨t1, e1⟩
  cases e1 with
  | some e =>
    rw [mainRun_err fs t1 e hp] at hmem
    exact Or.inl (plot_hist_bins fs "read" readBins d l b c a (by rw [hp]; exact hmem))
  | none =>
    simp only [mainRun_ok fs t1 hp, List.mem_append] at hmem
    rcases hmem with hmem | hmem
    · exact Or.inl (plot_hist_bins fs "read" readBins d l b c a (by rw [hp]; exact hmem))
    · exact Or.inr (plot_hist_bins fs "write" writeBins d l b c a hmem)

/-- C1 witness: the first histogram of a concrete successful run indeed uses
one of the two fixed edge lists. -/
theorem c1_fixed_bin_edges_witness :
    readBins = pyRange 150 200 2 ∨ readBins = pyRange 600 3750 40 :=
  c1_fixed_bin_edges.2.2.2.2.2.2 sampleFS [170] "Mutex" readBins "g" (mkRat 4 10)
    (by decide)

/-- C2: the Sample Loader opens exactly the file at
`'target/' + p + '_' + m + '.dat'` — the path is that concatenation, the
loader consults the filesystem at no other path — and a successful run reads
exactly the six paths `target/{mutex,rwlock,seqloq}_{read,write}.dat`. -/
theorem c2_file_paths :
    (∀ p m : String, dataPath (p ++ "_" ++ m) = "target/" ++ p ++ "_" ++ m ++ ".dat") ∧
    (∀ (fs fs' : String → Option String) (fn : String),
      fs (dataPath fn) = fs' (dataPath fn) → read_data fs fn = read_data fs' fn) ∧
    ∀ fs : String → Option String, (∀ fn ∈ allFiles, validFile fs fn) →
      openedPaths (mainRun fs).1 =
        ["target/mutex_read.dat", "target/rwlock_read.dat", "target/seqloq_read.dat",
         "target/mutex_write.dat", "target/rwlock_write.dat", "target/seqloq_write.dat"] := by
  refine ⟨?_, read_data_congr, ?_⟩
  · intro p m
    simp [dataPath, String.append_assoc]
  · intro fs h
    obtain ⟨rd1, rd2, rd3, wd1, wd2, wd3, hm⟩ := mainRun_success fs h
    rw [hm]
    rfl

/-- C2 witness: on a concrete filesystem with all six valid input files, the
run opens exactly the six expected paths. -/
theorem c2_file_paths_witness :
    dataPath ("mutex" ++ "_" ++ "read") = "target/" ++ "mutex" ++ "_" ++ "read" ++ ".dat" ∧
    openedPaths (mainRun sampleFS).1 =
      ["target/mutex_read.dat", "target/rwlock_read.dat", "target/seqloq_read.dat",
       "target/mutex_write.dat", "target/rwlock_write.dat", "target/seqloq_write.dat"] := by
  refine ⟨c2_file_paths.1 "mutex" "read", c2_file_paths.2.2 sampleFS ?_⟩
  intro fn hfn
  have h6 : fn = "mutex_read" ∨ fn = "rwlock_read" ∨ fn = "seqloq_read" ∨
      fn = "mutex_write" ∨ fn = "rwlock_write" ∨ fn = "seqloq_write" := by
    simpa [allFiles] using hfn
  rcases h6 with rfl | rfl | rfl | rfl | rfl | rfl
  · exact ⟨"170\n", by decide, by decide⟩
  · exact ⟨"170\n", by decide, by decide⟩
  · exact ⟨"170\n", by decide, by decide⟩
  · exact ⟨"600\n", by decide, by decide⟩
  · exact ⟨"600\n", by decide, by decide⟩
  · exact ⟨"600\n", by decide, by decide⟩

/-- C3: for every input file whose every line is a base-10 integer literal
optionally surrounded by whitespace, `read_data` returns the list of the
parsed integers in file order, one per line. -/
theorem c3_loader_parses_valid_files (fs : String → Option String) (fn content : String)
    (hc : fs (dataPath fn) = some content)
    (h : ∀ l ∈ readlines content, validIntLine l) :
    read_data fs fn = Except.ok ((readlines content).filterMap pyInt) ∧
      ((readlines content).filterMap pyInt).length = (readlines content).length := by
  have h' : ∀ l ∈ readlines content, (pyInt l).isSome = true :=
    fun l hl => pyInt_isSome_of_valid l (h l hl)
  exact ⟨read_data_ok fs fn content hc h', (parseLines_ok _ h').2⟩

/-- C3 witness: a concrete one-line file parses to its one integer. -/
theorem c3_loader_parses_valid_files_witness :
    read_data sampleFS "mutex_read" = Except.ok ((readlines "170\n").filterMap pyInt) ∧
      ((readlines "170\n").filterMap pyInt).length = (readlines "170\n").length :=
  c3_loader_parses_valid_files sampleFS "mutex_read" "170\n" (by decide) (by
    intro l hl
    rw [show readlines "170\n" = ["170\n"] from by decide] at hl
    rw [List.mem_singleton.mp hl]
    exact ⟨[], ['1', '7', '0'], ['\n'], by decide, by decide, by decide, by decide⟩)

/-- C4: if the three input files for a metric are present and any line of one
of them is not a valid integer, `plot` for that metric aborts with an uncaught
parsing error (`ValueError`) and the save step for that metric is never
reached: no `savefig` effect for that metric's image occurs. -/
theorem c4_parse_error_aborts (fs : String → Option String) (which : String) (bins : List Nat)
    (hpresent : ∀ fn ∈ primFiles which, (fs (dataPath fn)).isSome = true)
    (hbad : ∃ fn ∈ primFiles which, ∃ content, fs (dataPath fn) = some content ∧
      ∃ l ∈ readlines content, pyInt l = none) :
    (∃ l, pyInt l = none ∧ (plot fs which bins).2 = some (PyErr.valueError l)) ∧
      Eff.savefig ("histogram." ++ which ++ ".png") ∉ (plot fs which bins).1 := by
  obtain ⟨cmx, hcmx⟩ := Option.isSome_iff_exists.mp
    (hpresent _ (show ("mutex_" ++ which) ∈ primFiles which by simp [primFiles]))
  obtain ⟨crw, hcrw⟩ := Option.isSome_iff_exists.mp
    (hpresent _ (show ("rwlock_" ++ which) ∈ primFiles which by simp [primFiles]))
  obtain ⟨csq, hcsq⟩ := Option.isSome_iff_exists.mp
    (hpresent _ (show ("seqloq_" ++ which) ∈ primFiles which by simp [primFiles]))
  have herr : ∃ l, pyInt l = none ∧ (plot fs which bins).2 = some (PyErr.valueError l) := by
    by_cases hbm : ∃ l ∈ readlines cmx, pyInt l = none
    · obtain ⟨l, hln, hpl⟩ := parseLines_err _ hbm
      have hrd : read_data fs ("mutex_" ++ which) = .error (.valueError l) := by
        unfold read_data
        rw [hcmx]
        exact hpl
      exact ⟨l, hln, by rw [plot_err1 fs which bins _ hrd]⟩
    · have hvm : ∀ l ∈ readlines cmx, (pyInt l).isSome = true := by
        intro l hl
        cases ho : pyInt l with
        | none => exact absurd ⟨l, hl, ho⟩ hbm
        | some v => rfl
      have hdm := read_data_ok fs ("mutex_" ++ which) cmx hcmx hvm
      by_cases hbr : ∃ l ∈ readlines crw, pyInt l = none
      · obtain ⟨l, hln, hpl⟩ := parseLines_err _ hbr
        have hrd : read_data fs ("rwlock_" ++ which) = .error (.valueError l) := by
          unfold read_data
          rw [hcrw]
          exact hpl
        exact ⟨l, hln, by rw [plot_err2 fs which bins _ _ hdm hrd]⟩
      · have hvr : ∀ l ∈ readlines crw, (pyInt l).isSome = true := by
          intro l hl
          cases ho : pyInt l with
          | none => exact absurd ⟨l, hl, ho⟩ hbr
          | some v => rfl
        have hdr := read_data_ok fs ("rwlock_" ++ which) crw hcrw hvr
        by_cases hbs : ∃ l ∈ readlines csq, pyInt l = none
        · obtain ⟨l, hln, hpl⟩ := parseLines_err _ hbs
          have hrd : read_data fs ("seqloq_" ++ which) = .error (.valueError l) := by
            unfold read_data
            rw [hcsq]
            exact hpl
          exact ⟨l, hln, by rw [plot_err3 fs which bins _ _ _ hdm hdr hrd]⟩
        · exfalso
          obtain ⟨fn, hfn, content, hcontent, l, hl, hpl⟩ := hbad
          have h3 : fn = "mutex_" ++ which ∨ fn = "rwlock_" ++ which ∨
              fn = "seqloq_" ++ which := by
            simpa [primFiles] using hfn
          rcases h3 with rfl | rfl | rfl
          · rw [hcmx] at hcontent
            injection hcontent with hc
            subst hc
            exact hbm ⟨l, hl, hpl⟩
          · rw [hcrw] at hcontent
            injection hcontent with hc
            subst hc
            exact hbr ⟨l, hl, hpl⟩
          · rw [hcsq] at hcontent
            injection hcontent with hc
            subst hc
            exact hbs ⟨l, hl, hpl⟩
  refine ⟨herr, ?_⟩
  intro hmem
  obtain ⟨-, hnone⟩ := plot_savefig_mem fs which bins _ hmem
  obtain ⟨l, -, hsome⟩ := herr
  rw [hnone] at hsome
  exact Option.noConfusion hsome

/-- C4 witness: with `target/mutex_read.dat` containing a non-numeric line,
the read-metric invocation aborts with a `ValueError` and saves no image. -/
theorem c4_parse_error_aborts_witness :
    (∃ l, pyInt l = none ∧ (plot badLineFS "read" readBins).2 = some (PyErr.valueError l)) ∧
      Eff.savefig ("histogram." ++ "read" ++ ".png") ∉ (plot badLineFS "read" readBins).1 :=
  c4_parse_error_aborts badLineFS "read" readBins (by decide)
    ⟨"mutex_" ++ "read", by decide, "abc\n", by decide, "abc\n", by decide, by decide⟩

/-- C5: a successful metric report draws exactly three histograms, in order
Mutex (green), RwLock (blue), Seqloq (red), each with alpha 0.4 (the embedded
value `mkRat 4 10` is exactly the rational 0.4). -/
theorem c5_three_histograms (fs : String → Option String) (which : String) (bins : List Nat)
    (h : (plot fs which bins).2 = none) :
    (∃ d1 d2 d3 : List Int,
      histEffects (plot fs which bins).1 =
        [.hist d1 "Mutex" bins "g" (mkRat 4 10),
         .hist d2 "RwLock" bins "b" (mkRat 4 10),
         .hist d3 "Seqloq" bins "r" (mkRat 4 10)]) ∧
    mkRat 4 10 = (0.4 : Rat) := by
  refine ⟨?_, by norm_num [Rat.ofScientific_def]⟩
  cases h1 : read_data fs ("mutex_" ++ which) with
  | error e =>
    rw [plot_err1 fs which bins e h1] at h
    simp at h
  | ok d1 =>
    cases h2 : read_data fs ("rwlock_" ++ which) with
    | error e =>
      rw [plot_err2 fs which bins d1 e h1 h2] at h
      simp at h
    | ok d2 =>
      cases h3 : read_data fs ("seqloq_" ++ which) with
      | error e =>
        rw [plot_err3 fs which bins d1 d2 e h1 h2 h3] at h
        simp at h
      | ok d3 =>
        rw [plot_success fs which bins d1 d2 d3 h1 h2 h3]
        exact ⟨d1, d2, d3, rfl⟩

/-- C5 witness: a concrete successful read report draws the three fixed
histograms. -/
theorem c5_three_histograms_witness :
    (∃ d1 d2 d3 : List Int,
      histEffects (plot sampleFS "read" readBins).1 =
        [.hist d1 "Mutex" readBins "g" (mkRat 4 10),
         .hist d2 "RwLock" readBins "b" (mkRat 4 10),
         .hist d3 "Seqloq" readBins "r" (mkRat 4 10)]) ∧
    mkRat 4 10 = (0.4 : Rat) :=
  c5_three_histograms sampleFS "read" readBins rfl

/-- C6: a successful metric report sets the horizontal axis label to exactly
the title-cased metric name followed by " time (nanoseconds)" and the
vertical axis label to exactly "Count out of 10,000"; title-casing maps
"read" to "Read" and "write" to "Write". -/
theorem c6_axis_labels (fs : String → Option String) (which : String) (bins : List Nat)
    (h : (plot fs which bins).2 = none) :
    xlabels (plot fs which bins).1 = [pyTitle which ++ " time (nanoseconds)"] ∧
    ylabels (plot fs which bins).1 = ["Count out of 10,000"] ∧
    pyTitle "read" = "Read" ∧ pyTitle "write" = "Write" := by
  cases h1 : read_data fs ("mutex_" ++ which) with
  | error e =>
    rw [plot_err1 fs which bins e h1] at h
    simp at h
  | ok d1 =>
    cases h2 : read_data fs ("rwlock_" ++ which) with
    | error e =>
      rw [plot_err2 fs which bins d1 e h1 h2] at h
      simp at h
    | ok d2 =>
      cases h3 : read_data fs ("seqloq_" ++ which) with
      | error e =>
        rw [plot_err3 fs which bins d1 d2 e h1 h2 h3] at h
        simp at h
      | ok d3 =>
        rw [plot_success fs which bins d1 d2 d3 h1 h2 h3]
        exact ⟨rfl, rfl, by decide, by decide⟩

/-- C6 witness: the concrete read report labels its axes as specified. -/
theorem c6_axis_labels_witness :
    xlabels (plot sampleFS "read" readBins).1 = [pyTitle "read" ++ " time (nanoseconds)"] ∧
    ylabels (plot sampleFS "read" readBins).1 = ["Count out of 10,000"] ∧
    pyTitle "read" = "Read" ∧ pyTitle "write" = "Write" :=
  c6_axis_labels sampleFS "read" readBins rfl

/-- C7: when all six input files exist and contain only valid integer lines,
the run finishes without error and writes exactly the two image files
`histogram.read.png` and `histogram.write.png`, in that order, and no other
output file. -/
theorem c7_two_outputs (fs : String → Option String)
    (h : ∀ fn ∈ allFiles, validFile fs fn) :
    (mainRun fs).2 = none ∧
      savedPaths (mainRun fs).1 = ["histogram.read.png", "histogram.write.png"] := by
  obtain ⟨rd1, rd2, rd3, wd1, wd2, wd3, hm⟩ := mainRun_success fs h
  rw [hm]
  exact ⟨rfl, rfl⟩

/-- C7 witness: on a concrete filesystem with six valid files, exactly the
two expected images are saved. -/
theorem c7_two_outputs_witness :
    (mainRun sampleFS).2 = none ∧
      savedPaths (mainRun sampleFS).1 = ["histogram.read.png", "histogram.write.png"] := by
  refine c7_two_outputs sampleFS ?_
  intro fn hfn
  have h6 : fn = "mutex_read" ∨ fn = "rwlock_read" ∨ fn = "seqloq_read" ∨
      fn = "mutex_write" ∨ fn = "rwlock_write" ∨ fn = "seqloq_write" := by
    simpa [allFiles] using hfn
  rcases h6 with rfl | rfl | rfl | rfl | rfl | rfl
  · exact ⟨"170\n", by decide, by decide⟩
  · exact ⟨"170\n", by decide, by decide⟩
  · exact ⟨"170\n", by decide, by decide⟩
  · exact ⟨"600\n", by decide, by decide⟩
  · exact ⟨"600\n", by decide, by decide⟩
  · exact ⟨"600\n", by decide, by decide⟩

/-- C8: every invocation of `plot` performs `cla` as its very first effect,
before any histogram; consequently, replaying a successful full run over the
shared axes state shows the chart saved to `histogram.write.png` contains
exactly the three write-metric series — no series, label, or legend state from
the read-metric chart bleeds into it. -/
theorem c8_cla_resets_state :
    (∀ (fs : String → Option String) (which : String) (bins : List Nat),
      ∃ t, (plot fs which bins).1 = Eff.cla :: t) ∧
    ∀ fs : String → Option String, (∀ fn ∈ allFiles, validFile fs fn) →
      ∃ rd1 rd2 rd3 wd1 wd2 wd3 : List Int,
        (runChart initChart (mainRun fs).1).2 =
          [("histogram.read.png",
            ⟨[(rd1, "Mutex", "g"), (rd2, "RwLock", "b"), (rd3, "Seqloq", "r")],
             "Read time (nanoseconds)", "Count out of 10,000", true⟩),
           ("histogram.write.png",
            ⟨[(wd1, "Mutex", "g"), (wd2, "RwLock", "b"), (wd3, "Seqloq", "r")],
             "Write time (nanoseconds)", "Count out of 10,000", true⟩)] := by
  refine ⟨plot_head_cla, ?_⟩
  intro fs h
  obtain ⟨rd1, rd2, rd3, wd1, wd2, wd3, hm⟩ := mainRun_success fs h
  refine ⟨rd1, rd2, rd3, wd1, wd2, wd3, ?_⟩
  rw [hm]
  rfl

/-- C8 witness: concrete instances of both parts — the read invocation starts
with `cla`, and the concrete successful run saves two cleanly separated
charts. -/
theorem c8_cla_resets_state_witness :
    (∃ t, (plot sampleFS "read" readBins).1 = Eff.cla :: t) ∧
    ∃ rd1 rd2 rd3 wd1 wd2 wd3 : List Int,
      (runChart initChart (mainRun sampleFS).1).2 =
        [("histogram.read.png",
          ⟨[(rd1, "Mutex", "g"), (rd2, "RwLock", "b"), (rd3, "Seqloq", "r")],
           "Read time (nanoseconds)", "Count out of 10,000", true⟩),
         ("histogram.write.png",
          ⟨[(wd1, "Mutex", "g"), (wd2, "RwLock", "b"), (wd3, "Seqloq", "r")],
           "Write time (nanoseconds)", "Count out of 10,000", true⟩)] := by
  refine ⟨c8_cla_resets_state.1 sampleFS "read" readBins, c8_cla_resets_state.2 sampleFS ?_⟩
  intro fn hfn
  have h6 : fn = "mutex_read" ∨ fn = "rwlock_read" ∨ fn = "seqloq_read" ∨
      fn = "mutex_write" ∨ fn = "rwlock_write" ∨ fn = "seqloq_write" := by
    simpa [allFiles] using hfn
  rcases h6 with rfl | rfl | rfl | rfl | rfl | rfl
  · exact ⟨"170\n", by decide, by decide⟩
  · exact ⟨"170\n", by decide, by decide⟩
  · exact ⟨"170\n", by decide, by decide⟩
  · exact ⟨"600\n", by decide, by decide⟩
  · exact ⟨"600\n", by decide, by decide⟩
  · exact ⟨"600\n", by decide, by decide⟩

/-- C9: the read-metric report depends only on the three read input files —
two filesystems agreeing on them produce identical read reports, and whether
`histogram.read.png` is saved is unchanged; and if the read report succeeds
while the write report fails, `histogram.read.png` is still saved by the run
while `histogram.write.png` never is. -/
theorem c9_read_report_independent :
    (∀ fs fs' : String → Option String,
      (∀ fn ∈ primFiles "read", fs (dataPath fn) = fs' (dataPath fn)) →
      plot fs "read" readBins = plot fs' "read" readBins ∧
        (Eff.savefig "histogram.read.png" ∈ (mainRun fs).1 ↔
          Eff.savefig "histogram.read.png" ∈ (mainRun fs').1)) ∧
    ∀ fs : String → Option String, (plot fs "read" readBins).2 = none →
      (plot fs "write" writeBins).2 ≠ none →
      Eff.savefig "histogram.read.png" ∈ (mainRun fs).1 ∧
        Eff.savefig "histogram.write.png" ∉ (mainRun fs).1 := by
  constructor
  · intro fs fs' hagree
    have hpl : plot fs "read" readBins = plot fs' "read" readBins :=
      plot_ext fs fs' "read" readBins hagree
    refine ⟨hpl, ?_⟩
    rw [mainRun_savefig_read fs, mainRun_savefig_read fs', hpl]
  · intro fs hread hwrite
    constructor
    · exact (mainRun_savefig_read fs).mpr (plot_savefig_of_none fs "read" readBins hread)
    · intro hmem
      rcases hp : plot fs "read" readBins with ⟨t1, e1⟩
      cases e1 with
      | some e =>
        rw [hp] at hread
        simp at hread
      | none =>
        simp only [mainRun_ok fs t1 hp, List.mem_append] at hmem
        rcases hmem with hmm | hmm
        · obtain ⟨hpath, -⟩ :=
            plot_savefig_mem fs "read" readBins _ (by rw [hp]; exact hmm)
          exact absurd hpath (by decide)
        · obtain ⟨-, hnone⟩ := plot_savefig_mem fs "write" writeBins _ hmm
          exact hwrite hnone

/-- C9 witness: removing the write files leaves the concrete read report
unchanged, and with only `target/rwlock_write.dat` missing the run still
saves the read image and never saves the write image. -/
theorem c9_read_report_independent_witness :
    (plot sampleFS "read" readBins = plot sampleFSNoWrite "read" readBins ∧
      (Eff.savefig "histogram.read.png" ∈ (mainRun sampleFS).1 ↔
        Eff.savefig "histogram.read.png" ∈ (mainRun sampleFSNoWrite).1)) ∧
    (Eff.savefig "histogram.read.png" ∈ (mainRun sampleFSNoRwlockWrite).1 ∧
      Eff.savefig "histogram.write.png" ∉ (mainRun sampleFSNoRwlockWrite).1) :=
  ⟨c9_read_report_independent.1 sampleFS sampleFSNoWrite (by decide),
   c9_read_report_independent.2 sampleFSNoRwlockWrite rfl (by decide)⟩

/-- C10: a zero-line (empty) input file loads as the empty sample list without
error, whereas a line that is empty or all-whitespace — e.g. the extra line
left by a trailing blank line — raises a parsing error; if such a line is in
`target/mutex_read.dat`, the whole run aborts and saves no image at all. -/
theorem c10_empty_file_vs_blank_line :
    (∀ (fs : String → Option String) (fn : String),
      fs (dataPath fn) = some "" → read_data fs fn = Except.ok []) ∧
    (∀ (fs : String → Option String) (fn content : String),
      fs (dataPath fn) = some content →
      (∃ l ∈ readlines content, l.data ≠ [] ∧ ∀ c ∈ l.data, isPySpace c = true) →
      ∃ l, read_data fs fn = Except.error (PyErr.valueError l)) ∧
    ∀ (fs : String → Option String) (content : String),
      fs (dataPath "mutex_read") = some content →
      (∃ l ∈ readlines content, l.data ≠ [] ∧ ∀ c ∈ l.data, isPySpace c = true) →
      (mainRun fs).2 ≠ none ∧ savedPaths (mainRun fs).1 = [] := by
  refine ⟨?_, ?_, ?_⟩
  · intro fs fn h
    unfold read_data
    rw [h]
    rfl
  · intro fs fn content hc hblank
    obtain ⟨l0, hl0, _, hsp⟩ := hblank
    obtain ⟨l, hln, hpl⟩ := parseLines_err _ ⟨l0, hl0, pyInt_none_of_blank l0 hsp⟩
    refine ⟨l, ?_⟩
    unfold read_data
    rw [hc]
    exact hpl
  · intro fs content hcontent hblank
    obtain ⟨l0, hl0, _, hsp⟩ := hblank
    obtain ⟨l, hln, hpl⟩ := parseLines_err _ ⟨l0, hl0, pyInt_none_of_blank l0 hsp⟩
    have herr : read_data fs ("mutex_" ++ "read") = .error (.valueError l) := by
      unfold read_data
      rw [show fs (dataPath ("mutex_" ++ "read")) = some content from hcontent]
      exact hpl
    rw [mainRun_err fs _ _ (plot_err1 fs "read" readBins _ herr)]
    exact ⟨by simp, rfl⟩

/-- C10 witness: an empty `target/mutex_read.dat` loads as `[]`; a file
`"170\n\n"` (trailing blank line) raises a parsing error and the run saves
nothing. -/
theorem c10_empty_file_vs_blank_line_witness :
    read_data emptyFileFS "mutex_read" = Except.ok [] ∧
    (∃ l, read_data blankLineFS "mutex_read" = Except.error (PyErr.valueError l)) ∧
    ((mainRun blankLineFS).2 ≠ none ∧ savedPaths (mainRun blankLineFS).1 = []) :=
  ⟨c10_empty_file_vs_blank_line.1 emptyFileFS "mutex_read" (by decide),
   c10_empty_file_vs_blank_line.2.1 blankLineFS "mutex_read" "170\n\n" (by decide)
     ⟨"\n", by decide, by decide, by decide⟩,
   c10_empty_file_vs_blank_line.2.2 blankLineFS "170\n\n" (by decide)
     ⟨"\n", by decide, by decide, by decide⟩⟩
